import Mathlib

/-!
Shallow embedding of the `profiles` backend (src/backend/database.py,
src/backend/auth.py, src/backend/main.py) and proofs about it.

Modelling conventions:
* Python dicts used as keyed stores are association lists in insertion
  order; assignment `d[k] = v` replaces the value at an existing key in
  place and appends otherwise, `del d[k]` removes the key, matching dict
  semantics (keys are unique in a Python dict, so "replace every entry
  with this key" coincides with replacing the one entry).
* `datetime.now()` readings are explicit `now : Nat` arguments.
* `str(uuid.uuid4())` is modelled as a fresh id drawn from a counter
  carried in the database state (`next_uuid`), capturing freshness.
* Python exceptions raised by an operation are modelled with `Except`;
  each operation also returns the store state as of the moment the
  exception escapes, so "no mutation happened" is provable, not built in.
-/

namespace Profiles

/-- Dict lookup `d.get(k)` / `k in d` on an association list. -/
def dlookup {α : Type} (k : String) : List (String × α) → Option α
  | [] => none
  | kv :: t => if kv.1 == k then some kv.2 else dlookup k t

/-- Dict assignment `d[k] = v`: replace the value at an existing key in
place, otherwise append the new binding at the end. -/
def dinsert {α : Type} (k : String) (v : α) (l : List (String × α)) : List (String × α) :=
  if (dlookup k l).isSome then
    l.map (fun kv => if kv.1 == k then (k, v) else kv)
  else l ++ [(k, v)]

/-- Dict deletion `del d[k]`: drop every binding of the key. -/
def derase {α : Type} (k : String) (l : List (String × α)) : List (String × α) :=
  l.filter (fun kv => !(kv.1 == k))

/-! ### Session Auth Store (src/backend/auth.py, class AuthManager) -/

/-- Session record stored in `AuthManager.sessions`: the dict built in
`create_session` with keys `user_id`, `created_at`, `expires_at`. -/
structure Session where
  user_id : String
  created_at : Nat
  expires_at : Nat
deriving DecidableEq

/-- Result of a successful `json.loads(base64.b64decode(token))` followed by
`.get("session_id")` / `.get("user_id")`: a JSON object whose two fields of
interest may each be absent. -/
structure TokenPayload where
  session_id : Option String
  user_id : Option String
deriving DecidableEq

/-- An arbitrary token string, partitioned by what
`json.loads(base64.b64decode(token))` does with it: either it decodes to a
JSON object (`encoded`), or decoding raises (`malformed`, carrying the raw
string). `create_session` only ever produces `encoded` tokens. -/
inductive Token where
  | encoded (payload : TokenPayload)
  | malformed (raw : String)
deriving DecidableEq

/-- The decode step shared by `verify_token` and `logout`:
`json.loads(base64.b64decode(token))` inside a `try`, `none` meaning the
decode raised and the `except` branch runs. -/
def decodeToken : Token → Option TokenPayload
  | .encoded p => some p
  | .malformed _ => none

/-- Python `timedelta(days=7)` in seconds, the session validity window. -/
def sevenDays : Nat := 7 * 24 * 60 * 60

/-- State of an `AuthManager`: the in-memory `sessions` dict keyed by
session id. -/
structure AuthState where
  sessions : List (String × Session)
deriving DecidableEq

/-- A fresh `AuthManager` (`self.sessions = {}`). -/
def authInit : AuthState := { sessions := [] }

/-- The session id built in `create_session`:
`f"session_\x7buser_id\x7d_\x7bdatetime.now().timestamp()\x7d"`, with the
timestamp reading rendered in decimal by `Nat.repr`. -/
def mkSessionId (user_id : String) (now : Nat) : String :=
  "session_" ++ user_id ++ "_" ++ Nat.repr now

/-- Embeds `AuthManager.create_session`: store a session record with a 7-day
expiry under the generated session id, and return the token encoding
`\x7b"session_id": ..., "user_id": ...\x7d`. -/
def create_session (st : AuthState) (user_id : String) (now : Nat) : Token × AuthState :=
  let session_id := mkSessionId user_id now
  let session_data : Session :=
    { user_id := user_id, created_at := now, expires_at := now + sevenDays }
  (Token.encoded { session_id := some session_id, user_id := some user_id },
   { sessions := dinsert session_id session_data st.sessions })

/-- Embeds `AuthManager.verify_token`: decode the token (any decode failure is
swallowed and yields `none`), look the session id up in `sessions`; an
unexpired session is returned as is, an expired one is deleted and `none`
is returned. Returns the result paired with the resulting store state. -/
def verify_token (st : AuthState) (token : Token) (now : Nat) : Option Session × AuthState :=
  match decodeToken token with
  | none => (none, st)
  | some td =>
    match td.session_id with
    | none => (none, st)
    | some sid =>
      match dlookup sid st.sessions with
      | none => (none, st)
      | some session =>
        if session.expires_at > now then (some session, st)
        else (none, { sessions := derase sid st.sessions })

/-- Embeds `AuthManager.logout`: decode the token (decode failures swallowed); if
the decoded session id is present in `sessions`, delete it and return
`true`, otherwise return `false`. -/
def logout (st : AuthState) (token : Token) : Bool × AuthState :=
  match decodeToken token with
  | none => (false, st)
  | some td =>
    match td.session_id with
    | none => (false, st)
    | some sid =>
      match dlookup sid st.sessions with
      | none => (false, st)
      | some _ => (true, { sessions := derase sid st.sessions })

/-! ### Decimal rendering facts, for the structure of generated session ids -/

/-- Numeric value of a decimal digit character. -/
def charVal (c : Char) : Nat := c.toNat - 48

/-- Reads a most-significant-digit-first list of characters back as a
number. -/
def evalDigits (l : List Char) : Nat :=
  l.foldl (fun a c => a * 10 + charVal c) 0

/-! ### Data Store (src/backend/database.py, class DatabaseManager) -/

/-- A user record as built by `DatabaseManager.create_user`. -/
structure DBUser where
  id : Nat
  workos_user_id : String
  email : String
  name : String
  created_at : Nat
  updated_at : Nat
deriving DecidableEq

/-- A profile record as built by `DatabaseManager.create_profile`. -/
structure Profile where
  id : Nat
  user_id : Nat
  name : String
  email : String
  skills : List String
  bio : String
  available_for : List String
  created_at : Nat
  updated_at : Nat
deriving DecidableEq

/-- The `profile_data` dict passed to `create_profile` / `update_profile`:
each required key may be absent (`none`), in which case the subscript
access `profile_data[...]` raises `KeyError`. -/
structure ProfileData where
  name : Option String
  email : Option String
  skills : Option (List String)
  bio : Option String
  available_for : Option (List String)
deriving DecidableEq

/-- An appointment-request record as built by
`DatabaseManager.create_appointment_request`. -/
structure AppointmentRequest where
  id : Nat
  profile_id : Nat
  requester_name : String
  requester_email : String
  message : String
  preferred_time : Option String
  request_type : String
  status : String
  created_at : Nat
  sender_user_id : Option Nat
deriving DecidableEq

/-- The `request_data` dict passed to `create_appointment_request`. At the
only call site (the `/appointments` route) it is `model_dump()` of a
validated pydantic model, so every required key is present and only
`preferred_time` (fetched with `.get`) may be `None`. -/
structure RequestData where
  profile_id : Nat
  requester_name : String
  requester_email : String
  message : String
  preferred_time : Option String
  request_type : String
deriving DecidableEq

/-- Exceptions the Data Store operations can raise: `KeyError` from a
subscript on a missing required field, `ValueError("Profile not found")`
from `update_profile`. -/
inductive Err where
  | keyError (field : String)
  | valueError (msg : String)
deriving DecidableEq

/-- State of a `DatabaseManager`: the three dicts, each keyed by the `id`
stored inside the record, in insertion order; `next_uuid` is the fresh-id
source modelling `str(uuid.uuid4())`. -/
structure DBState where
  users : List DBUser
  profiles : List Profile
  appointment_requests : List AppointmentRequest
  next_uuid : Nat
deriving DecidableEq

/-- A fresh `DatabaseManager` (empty dicts). -/
def initDB : DBState :=
  { users := [], profiles := [], appointment_requests := [], next_uuid := 0 }

/-- Embeds `DatabaseManager.create_user`. -/
def create_user (st : DBState) (workos_user_id email name : String) (now : Nat) :
    DBUser × DBState :=
  let user : DBUser :=
    { id := st.next_uuid, workos_user_id := workos_user_id, email := email, name := name,
      created_at := now, updated_at := now }
  (user, { st with users := st.users ++ [user], next_uuid := st.next_uuid + 1 })

/-- Embeds `DatabaseManager.get_user_by_workos_id`: first match over the stored
values. -/
def get_user_by_workos_id (st : DBState) (w : String) : Option DBUser :=
  st.users.find? (fun u => u.workos_user_id == w)

/-- Embeds `DatabaseManager.get_user_by_id`: dict lookup by key. -/
def get_user_by_id (st : DBState) (uid : Nat) : Option DBUser :=
  st.users.find? (fun u => u.id == uid)

/-- Embeds `DatabaseManager.get_profiles`. -/
def get_profiles (st : DBState) : List Profile :=
  st.profiles

/-- Embeds `DatabaseManager.get_profile_by_id`: dict lookup by key. -/
def get_profile_by_id (st : DBState) (pid : Nat) : Option Profile :=
  st.profiles.find? (fun p => p.id == pid)

/-- Embeds `DatabaseManager.get_profiles_by_user_id`: comprehension filtering the
stored profiles on `user_id`. -/
def get_profiles_by_user_id (st : DBState) (uid : Nat) : List Profile :=
  st.profiles.filter (fun p => p.user_id == uid)

/-- The subscript accesses `profile_data["name"]`, `["email"]`,
`["skills"]`, `["bio"]`, `["available_for"]`, in the order both
`create_profile` and `update_profile` perform them while building their
dict literals; the first absent key raises `KeyError`. -/
def ProfileData.fields (pd : ProfileData) :
    Except Err (String × String × List String × String × List String) :=
  match pd.name with
  | none => .error (.keyError "name")
  | some n =>
    match pd.email with
    | none => .error (.keyError "email")
    | some e =>
      match pd.skills with
      | none => .error (.keyError "skills")
      | some sk =>
        match pd.bio with
        | none => .error (.keyError "bio")
        | some b =>
          match pd.available_for with
          | none => .error (.keyError "available_for")
          | some av => .ok (n, e, sk, b, av)

/-- Embeds `DatabaseManager.update_profile`: raise `ValueError` if the profile id
is unknown; otherwise overwrite the five data fields and `updated_at` of
the stored profile (its other fields are untouched) and return it. The
argument dict is built before the store is touched, so a `KeyError` leaves
the store unchanged. -/
def update_profile (st : DBState) (profile_id : Nat) (pd : ProfileData) (now : Nat) :
    Except Err Profile × DBState :=
  match get_profile_by_id st profile_id with
  | none => (.error (.valueError "Profile not found"), st)
  | some p =>
    match pd.fields with
    | .error er => (.error er, st)
    | .ok (n, e, sk, b, av) =>
      (.ok { p with name := n, email := e, skills := sk, bio := b, available_for := av,
                    updated_at := now },
       { st with profiles := st.profiles.map (fun q =>
          if q.id == profile_id then
            { q with name := n, email := e, skills := sk, bio := b, available_for := av,
                     updated_at := now }
          else q) })

/-- Embeds `DatabaseManager.create_profile`: if the user already owns profiles,
delegate to `update_profile` on the first one; otherwise build a fresh
profile (a `KeyError` while building it leaves the store unchanged) and
store it under its fresh id. -/
def create_profile (st : DBState) (user_id : Nat) (pd : ProfileData) (now : Nat) :
    Except Err Profile × DBState :=
  match get_profiles_by_user_id st user_id with
  | existing0 :: _ => update_profile st existing0.id pd now
  | [] =>
    match pd.fields with
    | .error er => (.error er, st)
    | .ok (n, e, sk, b, av) =>
      let profile : Profile :=
        { id := st.next_uuid, user_id := user_id, name := n, email := e, skills := sk,
          bio := b, available_for := av, created_at := now, updated_at := now }
      (.ok profile,
       { st with profiles := st.profiles ++ [profile], next_uuid := st.next_uuid + 1 })

/-- Embeds `DatabaseManager.create_appointment_request`: build the record with
status `"pending"` and the optional `sender_user_id` (default `None` at
the Python call sites that omit it) and store it under a fresh id. -/
def create_appointment_request (st : DBState) (rd : RequestData)
    (sender_user_id : Option Nat) (now : Nat) : AppointmentRequest × DBState :=
  let request : AppointmentRequest :=
    { id := st.next_uuid, profile_id := rd.profile_id, requester_name := rd.requester_name,
      requester_email := rd.requester_email, message := rd.message,
      preferred_time := rd.preferred_time, request_type := rd.request_type,
      status := "pending", created_at := now, sender_user_id := sender_user_id }
  (request,
   { st with appointment_requests := st.appointment_requests ++ [request],
             next_uuid := st.next_uuid + 1 })

/-- Embeds `DatabaseManager.get_requests_for_profile`. -/
def get_requests_for_profile (st : DBState) (pid : Nat) : List AppointmentRequest :=
  st.appointment_requests.filter (fun r => r.profile_id == pid)

/-- Embeds `DatabaseManager.get_requests_by_user_id`: requests whose profile id
is among the ids of the user's profiles. -/
def get_requests_by_user_id (st : DBState) (uid : Nat) : List AppointmentRequest :=
  let profile_ids := (get_profiles_by_user_id st uid).map (fun p => p.id)
  st.appointment_requests.filter (fun r => profile_ids.contains r.profile_id)

/-- Embeds `DatabaseManager.get_sent_requests_by_user_id`: requests whose
`sender_user_id` equals the given user id (`r.get("sender_user_id") ==
user_id`; an absent sender never equals a user id). -/
def get_sent_requests_by_user_id (st : DBState) (uid : Nat) : List AppointmentRequest :=
  st.appointment_requests.filter (fun r => r.sender_user_id == some uid)

/-- Embeds `DatabaseManager.update_request_status`: if the request id is present,
overwrite its status and return `True`, else return `False`. -/
def update_request_status (st : DBState) (request_id : Nat) (status : String) :
    Bool × DBState :=
  if (st.appointment_requests.find? (fun r => r.id == request_id)).isSome then
    (true,
     { st with appointment_requests := st.appointment_requests.map (fun r =>
        if r.id == request_id then { r with status := status } else r) })
  else (false, st)

/-- One Data Store mutation, with its clock reading and caller-chosen
arguments. -/
inductive DBOp where
  | createUser (workos_user_id email name : String) (now : Nat)
  | createProfile (user_id : Nat) (pd : ProfileData) (now : Nat)
  | updateProfile (profile_id : Nat) (pd : ProfileData) (now : Nat)
  | createRequest (rd : RequestData) (sender_user_id : Option Nat) (now : Nat)
  | updateStatus (request_id : Nat) (status : String)

/-- The store state after one operation (for a raising operation, the
state as of the escaped exception, i.e. unchanged). -/
def applyOp (st : DBState) (op : DBOp) : DBState :=
  match op with
  | .createUser w e n now => (create_user st w e n now).2
  | .createProfile u pd now => (create_profile st u pd now).2
  | .updateProfile pid pd now => (update_profile st pid pd now).2
  | .createRequest rd s now => (create_appointment_request st rd s now).2
  | .updateStatus rid status => (update_request_status st rid status).2

/-- The store state after a sequence of operations run against a fresh
`DatabaseManager`. -/
def runOps (ops : List DBOp) : DBState :=
  ops.foldl applyOp initDB

/-- A store state some operation sequence can produce. -/
def Reachable (st : DBState) : Prop :=
  ∃ ops, runOps ops = st

/-! ### Route layer (src/backend/main.py) -/

/-- The `POST /appointments` handler `request_appointment`: 404 (`none`)
if the target profile does not resolve, otherwise create the request —
passing no sender, so `sender_user_id` takes its default `None` — and
answer with the new request id. -/
def request_appointment (st : DBState) (req : RequestData) (now : Nat) :
    Option (Nat × DBState) :=
  match get_profile_by_id st req.profile_id with
  | none => none
  | some _ =>
    let result := create_appointment_request st req none now
    some (result.1.id, result.2)

/-- The session id a token encodes, as read back by the decode step of
`verify_token` / `logout`. -/
def tokenSessionId (t : Token) : Option String :=
  (decodeToken t).bind (fun td => td.session_id)

/-- The "at most one profile per user" invariant of the Data Store. -/
def ProfilesWF (st : DBState) : Prop :=
  ∀ u, (get_profiles_by_user_id st u).length ≤ 1

/-- A complete profile-data record, used as a concrete example input. -/
def pdComplete : ProfileData :=
  { name := some "Alice", email := some "alice@example.com", skills := some ["python"],
    bio := some "hi", available_for := some ["appointments"] }

/-- A second complete profile-data record, used as a concrete example
input. -/
def pdComplete2 : ProfileData :=
  { name := some "Bob", email := some "bob@example.com", skills := some ["go"],
    bio := some "yo", available_for := some ["quotes"] }

/-- A profile-data record whose email key is absent, used as a concrete
example input. -/
def pdNoEmail : ProfileData :=
  { name := some "Alice", email := none, skills := some ["python"],
    bio := some "hi", available_for := some ["appointments"] }

/-- A store holding exactly one profile (id 0, owned by user 7), used as
a concrete example state. -/
def stOneProfile : DBState := (create_profile initDB 7 pdComplete 5).2

/-- A concrete appointment-request payload aimed at profile 0. -/
def rdExample : RequestData :=
  { profile_id := 0, requester_name := "Carol", requester_email := "carol@example.com",
    message := "hello", preferred_time := none, request_type := "meeting" }

/-! ### Library lemmas about the dict model and decimal rendering -/

theorem dlookup_append_none {α : Type} {k : String} {l1 : List (String × α)}
    (l2 : List (String × α)) (h : dlookup k l1 = none) :
    dlookup k (l1 ++ l2) = dlookup k l2 := by
  induction l1 with
  | nil => simp
  | cons kv t ih =>
    by_cases hk : (kv.1 == k) = true
    · simp [dlookup, hk] at h
    · simp only [dlookup, hk, if_neg, Bool.false_eq_true, not_false_iff] at h
      simp only [List.cons_append, dlookup, hk, if_neg, Bool.false_eq_true, not_false_iff]
      exact ih h

theorem dlookup_append_some {α : Type} {k : String} {l1 : List (String × α)} {v : α}
    (l2 : List (String × α)) (h : dlookup k l1 = some v) :
    dlookup k (l1 ++ l2) = some v := by
  induction l1 with
  | nil => simp [dlookup] at h
  | cons kv t ih =>
    by_cases hk : (kv.1 == k) = true
    · simp only [dlookup, hk, if_pos] at h
      simp [dlookup, hk, h]
    · simp only [dlookup, hk, if_neg, Bool.false_eq_true, not_false_iff] at h
      simp only [List.cons_append, dlookup, hk, if_neg, Bool.false_eq_true, not_false_iff]
      exact ih h

theorem dlookup_map_replace_self {α : Type} {k : String} {v : α} {l : List (String × α)}
    (h : (dlookup k l).isSome) :
    dlookup k (l.map (fun kv => if kv.1 == k then (k, v) else kv)) = some v := by
  induction l with
  | nil => simp [dlookup] at h
  | cons kv t ih =>
    by_cases hk : (kv.1 == k) = true
    · simp [dlookup, hk]
    · simp only [dlookup, hk, if_neg, Bool.false_eq_true, not_false_iff] at h
      simp only [List.map_cons, hk, if_neg, Bool.false_eq_true, not_false_iff, dlookup]
      exact ih h

theorem dlookup_map_replace_ne {α : Type} {k k2 : String} {v : α} (l : List (String × α))
    (h : k2 ≠ k) :
    dlookup k2 (l.map (fun kv => if kv.1 == k then (k, v) else kv)) = dlookup k2 l := by
  induction l with
  | nil => simp
  | cons kv t ih =>
    by_cases hk : (kv.1 == k) = true
    · have hkv : kv.1 = k := by simpa using hk
      have h1 : (k == k2) = false := by simp; exact fun hh => h hh.symm
      have h2 : (kv.1 == k2) = false := by rw [hkv]; exact h1
      simp only [List.map_cons, hk, if_pos, dlookup, h1, h2, Bool.false_eq_true, if_neg,
        not_false_iff]
      exact ih
    · simp only [List.map_cons, hk, if_neg, Bool.false_eq_true, not_false_iff, dlookup]
      by_cases hk2 : (kv.1 == k2) = true
      · simp [hk2]
      · simp only [hk2, if_neg, Bool.false_eq_true, not_false_iff]
        exact ih

theorem dlookup_dinsert_self {α : Type} (k : String) (v : α) (l : List (String × α)) :
    dlookup k (dinsert k v l) = some v := by
  unfold dinsert
  by_cases hs : (dlookup k l).isSome
  · rw [if_pos hs]
    exact dlookup_map_replace_self hs
  · rw [if_neg hs]
    rw [dlookup_append_none [(k, v)] (by simpa using hs)]
    simp [dlookup]

theorem dlookup_dinsert_ne {α : Type} {k k2 : String} (v : α) (l : List (String × α))
    (h : k2 ≠ k) : dlookup k2 (dinsert k v l) = dlookup k2 l := by
  unfold dinsert
  by_cases hs : (dlookup k l).isSome
  · rw [if_pos hs]
    exact dlookup_map_replace_ne l h
  · rw [if_neg hs]
    cases hl : dlookup k2 l with
    | some w => exact dlookup_append_some [(k, v)] hl
    | none =>
      rw [dlookup_append_none [(k, v)] hl]
      have h1 : (k == k2) = false := by simp; exact fun hh => h hh.symm
      simp [dlookup, h1]

theorem dlookup_derase_self {α : Type} (k : String) (l : List (String × α)) :
    dlookup k (derase k l) = none := by
  induction l with
  | nil => simp [derase, dlookup]
  | cons kv t ih =>
    by_cases hk : (kv.1 == k) = true
    · simpa [derase, List.filter_cons, hk] using ih
    · simpa [derase, List.filter_cons, hk, dlookup] using ih

theorem dlookup_derase_ne {α : Type} {k k2 : String} (l : List (String × α))
    (h : k2 ≠ k) : dlookup k2 (derase k l) = dlookup k2 l := by
  induction l with
  | nil => rfl
  | cons kv t ih =>
    by_cases hk : (kv.1 == k) = true
    · have hkv : kv.1 = k := by simpa using hk
      have h2 : (kv.1 == k2) = false := by
        rw [hkv]; simp; exact fun hh => h hh.symm
      simp only [derase, List.filter_cons, hk, Bool.not_true, if_neg, Bool.false_eq_true,
        not_false_iff, dlookup, h2]
      exact ih
    · simp only [derase, List.filter_cons, hk, Bool.not_false, if_pos, dlookup]
      by_cases hk2 : (kv.1 == k2) = true
      · simp [hk2]
      · simp only [hk2, if_neg, Bool.false_eq_true, not_false_iff]
        exact ih

theorem charVal_digitChar : ∀ d, d < 10 → charVal (Nat.digitChar d) = d := by decide

theorem digitChar_ne_underscore : ∀ d, d < 10 → Nat.digitChar d ≠ '_' := by decide

theorem toDigitsCore_append (fuel n : Nat) (ds : List Char) :
    Nat.toDigitsCore 10 fuel n ds = Nat.toDigitsCore 10 fuel n [] ++ ds := by
  induction fuel generalizing n ds with
  | zero => simp [Nat.toDigitsCore]
  | succ fuel ih =>
    simp only [Nat.toDigitsCore]
    by_cases h : n / 10 = 0
    · simp [h]
    · simp only [h, if_neg, Bool.false_eq_true, not_false_iff, if_false]
      rw [ih (n / 10) ((n % 10).digitChar :: ds), ih (n / 10) [(n % 10).digitChar]]
      simp

theorem underscore_not_mem_toDigitsCore (fuel n : Nat) (ds : List Char)
    (h : '_' ∉ ds) : '_' ∉ Nat.toDigitsCore 10 fuel n ds := by
  induction fuel generalizing n ds with
  | zero => simpa [Nat.toDigitsCore] using h
  | succ fuel ih =>
    simp only [Nat.toDigitsCore]
    by_cases hn : n / 10 = 0
    · simp only [hn, if_pos]
      intro hmem
      rcases List.mem_cons.mp hmem with h1 | h1
      · exact digitChar_ne_underscore (n % 10) (Nat.mod_lt n (by norm_num)) h1.symm
      · exact h h1
    · simp only [hn, if_neg, Bool.false_eq_true, not_false_iff, if_false]
      apply ih
      intro hmem
      rcases List.mem_cons.mp hmem with h1 | h1
      · exact digitChar_ne_underscore (n % 10) (Nat.mod_lt n (by norm_num)) h1.symm
      · exact h h1

theorem evalDigits_append_one (l : List Char) (c : Char) :
    evalDigits (l ++ [c]) = evalDigits l * 10 + charVal c := by
  simp [evalDigits, List.foldl_append]

theorem evalDigits_toDigitsCore (fuel n : Nat) (h : n < 10 ^ fuel) :
    evalDigits (Nat.toDigitsCore 10 fuel n []) = n := by
  induction fuel generalizing n with
  | zero =>
    have hn : n = 0 := by simpa using h
    subst hn
    simp [Nat.toDigitsCore, evalDigits]
  | succ fuel ih =>
    simp only [Nat.toDigitsCore]
    by_cases hn : n / 10 = 0
    · have hlt : n < 10 := by
        have := Nat.div_add_mod n 10
        have hm : n % 10 < 10 := Nat.mod_lt n (by norm_num)
        omega
      simp only [hn, if_pos]
      simp [evalDigits, Nat.mod_eq_of_lt hlt, charVal_digitChar n hlt]
    · simp only [hn, if_neg, Bool.false_eq_true, not_false_iff, if_false]
      rw [toDigitsCore_append fuel (n / 10) [(n % 10).digitChar], evalDigits_append_one]
      rw [ih (n / 10) ?_]
      · rw [charVal_digitChar (n % 10) (Nat.mod_lt _ (by norm_num))]
        have := Nat.div_add_mod n 10
        omega
      · have h2 : n < 10 ^ fuel * 10 := by
          calc n < 10 ^ (fuel + 1) := h
          _ = 10 ^ fuel * 10 := by rw [pow_succ]
        exact Nat.div_lt_of_lt_mul (by omega)

theorem data_natRepr (n : Nat) : (Nat.repr n).data = Nat.toDigits 10 n := rfl

theorem natRepr_inj {a b : Nat} (h : Nat.repr a = Nat.repr b) : a = b := by
  have hd : Nat.toDigits 10 a = Nat.toDigits 10 b := by
    rw [← data_natRepr, ← data_natRepr, h]
  have hfa : a < 10 ^ (a + 1) :=
    lt_of_lt_of_le (Nat.lt_pow_self (by norm_num) a)
      (Nat.pow_le_pow_right (by norm_num) (Nat.le_succ a))
  have hfb : b < 10 ^ (b + 1) :=
    lt_of_lt_of_le (Nat.lt_pow_self (by norm_num) b)
      (Nat.pow_le_pow_right (by norm_num) (Nat.le_succ b))
  have ha := evalDigits_toDigitsCore (a + 1) a hfa
  have hb := evalDigits_toDigitsCore (b + 1) b hfb
  rw [show Nat.toDigitsCore 10 (a + 1) a [] = Nat.toDigits 10 a from rfl] at ha
  rw [show Nat.toDigitsCore 10 (b + 1) b [] = Nat.toDigits 10 b from rfl] at hb
  rw [← ha, ← hb, hd]

theorem underscore_not_mem_natRepr (n : Nat) : '_' ∉ (Nat.repr n).data := by
  rw [data_natRepr]
  exact underscore_not_mem_toDigitsCore (n + 1) n [] (by simp)

theorem append_sep_inj {b b2 : List Char} {c : Char} :
    ∀ {a a2 : List Char}, c ∉ b → c ∉ b2 → a ++ c :: b = a2 ++ c :: b2 →
    a = a2 ∧ b = b2 := by
  intro a
  induction a with
  | nil =>
    intro a2 hb hb2 h
    cases a2 with
    | nil =>
      simp only [List.nil_append, List.cons.injEq] at h
      exact ⟨rfl, h.2⟩
    | cons x t2 =>
      simp only [List.nil_append, List.cons_append, List.cons.injEq] at h
      exfalso
      apply hb
      rw [h.2]
      exact List.mem_append_right _ (List.mem_cons_self c b2)
  | cons x t ih =>
    intro a2 hb hb2 h
    cases a2 with
    | nil =>
      simp only [List.cons_append, List.nil_append, List.cons.injEq] at h
      exfalso
      apply hb2
      rw [← h.2]
      exact List.mem_append_right _ (List.mem_cons_self c b)
    | cons y t2 =>
      simp only [List.cons_append, List.cons.injEq] at h
      obtain ⟨h1, h2⟩ := ih hb hb2 h.2
      exact ⟨by rw [h.1, h1], h2⟩

theorem mkSessionId_inj {u1 u2 : String} {t1 t2 : Nat}
    (h : mkSessionId u1 t1 = mkSessionId u2 t2) : u1 = u2 ∧ t1 = t2 := by
  have hd := congrArg String.data h
  simp only [mkSessionId, String.data_append] at hd
  have hd2 : ("session_".data ++ u1.data) ++ '_' :: (Nat.repr t1).data
      = ("session_".data ++ u2.data) ++ '_' :: (Nat.repr t2).data := by
    simpa [List.append_assoc] using hd
  obtain ⟨hpre, hsuf⟩ :=
    append_sep_inj (underscore_not_mem_natRepr t1) (underscore_not_mem_natRepr t2) hd2
  refine ⟨String.ext (List.append_cancel_left hpre), natRepr_inj (String.ext hsuf)⟩


/-! ### Data Store helper lemmas -/

theorem filter_userid_map (l : List Profile) (f : Profile → Profile) (u : Nat)
    (hf : ∀ p, (f p).user_id = p.user_id) :
    (l.map f).filter (fun p => p.user_id == u)
      = (l.filter (fun p => p.user_id == u)).map f := by
  induction l with
  | nil => rfl
  | cons p t ih =>
    simp only [List.map_cons, List.filter_cons, hf p]
    by_cases hp : (p.user_id == u) = true
    · simp only [hp, if_pos, List.map_cons, ih]
    · simp only [hp, if_neg, Bool.false_eq_true, not_false_iff, ih]

theorem update_profile_filter_len (st : DBState) (pid : Nat) (pd : ProfileData)
    (now u : Nat) :
    (get_profiles_by_user_id (update_profile st pid pd now).2 u).length
      = (get_profiles_by_user_id st u).length := by
  unfold update_profile
  cases hp : get_profile_by_id st pid with
  | none => rfl
  | some p =>
    cases hfl : pd.fields with
    | error er => rfl
    | ok t =>
      obtain ⟨n, e, sk, b, av⟩ := t
      simp only [get_profiles_by_user_id]
      rw [filter_userid_map _ _ _ (fun q => by by_cases h : (q.id == pid) = true <;> simp [h])]
      simp

theorem applyOp_wf (st : DBState) (op : DBOp) (h : ProfilesWF st) :
    ProfilesWF (applyOp st op) := by
  cases op with
  | createUser w e n now => exact h
  | updateProfile pid pd now =>
    intro u
    rw [show applyOp st (.updateProfile pid pd now) = (update_profile st pid pd now).2 from rfl]
    rw [update_profile_filter_len]
    exact h u
  | createRequest rd s now => exact h
  | updateStatus rid status =>
    intro u
    rw [show applyOp st (.updateStatus rid status)
        = (update_request_status st rid status).2 from rfl]
    unfold get_profiles_by_user_id
    rw [show (update_request_status st rid status).2.profiles = st.profiles from by
      unfold update_request_status; split <;> rfl]
    exact h u
  | createProfile u0 pd now =>
    intro u
    rw [show applyOp st (.createProfile u0 pd now) = (create_profile st u0 pd now).2 from rfl]
    cases hex : get_profiles_by_user_id st u0 with
    | cons p0 t =>
      rw [show create_profile st u0 pd now = update_profile st p0.id pd now from by
        simp only [create_profile, hex]]
      rw [update_profile_filter_len]
      exact h u
    | nil =>
      cases hfl : pd.fields with
      | error er =>
        rw [show create_profile st u0 pd now = (.error er, st) from by
          simp only [create_profile, hex, hfl]]
        exact h u
      | ok tup =>
        obtain ⟨n, e, sk, b, av⟩ := tup
        rw [show (create_profile st u0 pd now).2
            = { st with profiles := st.profiles ++
                          [⟨st.next_uuid, u0, n, e, sk, b, av, now, now⟩],
                        next_uuid := st.next_uuid + 1 } from by
          simp only [create_profile, hex, hfl]]
        simp only [get_profiles_by_user_id, List.filter_append]
        by_cases hu : u0 = u
        · subst hu
          have hempty : st.profiles.filter (fun p => p.user_id == u0) = [] := hex
          rw [hempty]
          simp
        · have hne : ((⟨st.next_uuid, u0, n, e, sk, b, av, now, now⟩ : Profile).user_id == u)
              = false := by simp [hu]
          simp only [List.filter_cons, hne, List.filter_nil, List.append_nil,
            Bool.false_eq_true, if_neg, not_false_iff]
          exact h u

theorem foldl_wf (ops : List DBOp) (st : DBState) (h : ProfilesWF st) :
    ProfilesWF (ops.foldl applyOp st) := by
  induction ops generalizing st with
  | nil => exact h
  | cons op t ih => exact ih _ (applyOp_wf st op h)

theorem runOps_wf (ops : List DBOp) : ProfilesWF (runOps ops) :=
  foldl_wf ops initDB (fun u => by simp [get_profiles_by_user_id, initDB])

theorem get_profile_by_id_isSome_of_mem (st : DBState) (p : Profile)
    (h : p ∈ st.profiles) : ∃ q, get_profile_by_id st p.id = some q := by
  have hs : (st.profiles.find? (fun q => q.id == p.id)).isSome :=
    List.find?_isSome.mpr ⟨p, h, by simp⟩
  exact Option.isSome_iff_exists.mp hs

theorem mem_of_filter_cons (st : DBState) (u : Nat) (p : Profile)
    (t : List Profile) (h : get_profiles_by_user_id st u = p :: t) :
    p ∈ st.profiles ∧ p.user_id = u := by
  have hmem : p ∈ get_profiles_by_user_id st u := by rw [h]; exact List.mem_cons_self p t
  have := List.mem_filter.mp hmem
  exact ⟨this.1, by simpa using this.2⟩

theorem find?_id_map_update (l : List Profile) (pid pid2 : Nat) (g : Profile → Profile)
    (hg : ∀ q, (g q).id = q.id) :
    (l.map (fun q => if q.id == pid then g q else q)).find? (fun q => q.id == pid2)
      = (l.find? (fun q => q.id == pid2)).map (fun q => if q.id == pid then g q else q) := by
  rw [List.find?_map]
  have hpred : ((fun q => q.id == pid2) ∘ fun q => if q.id == pid then g q else q)
      = (fun q => q.id == pid2) := by
    funext q
    by_cases h : (q.id == pid) = true
    · simp only [Function.comp, h, if_pos, hg]
    · simp only [Function.comp, h, if_neg, Bool.false_eq_true, not_false_iff]
  rw [hpred]

theorem update_profile_ok (st : DBState) (pid : Nat) (pd : ProfileData) (now : Nat)
    (p : Profile) (n e : String) (sk : List String) (b : String) (av : List String)
    (hp : get_profile_by_id st pid = some p)
    (hf : pd.fields = .ok (n, e, sk, b, av)) :
    update_profile st pid pd now
      = (.ok { p with name := n, email := e, skills := sk, bio := b, available_for := av,
                      updated_at := now },
         { st with profiles := st.profiles.map (fun q =>
            if q.id == pid then
              { q with name := n, email := e, skills := sk, bio := b, available_for := av,
                       updated_at := now }
            else q) }) := by
  simp only [update_profile, hp, hf]

theorem upsert_result (st : DBState) (u : Nat) (pd : ProfileData) (now : Nat)
    (n e : String) (sk : List String) (b : String) (av : List String)
    (hlen : (get_profiles_by_user_id st u).length ≤ 1)
    (hf : pd.fields = .ok (n, e, sk, b, av)) :
    ∃ p, get_profiles_by_user_id (create_profile st u pd now).2 u = [p] ∧
      p.user_id = u ∧ p.name = n ∧ p.email = e ∧ p.skills = sk ∧ p.bio = b ∧
      p.available_for = av ∧ p.updated_at = now := by
  cases hex : get_profiles_by_user_id st u with
  | nil =>
    rw [show (create_profile st u pd now).2
        = { st with profiles := st.profiles ++ [⟨st.next_uuid, u, n, e, sk, b, av, now, now⟩],
                    next_uuid := st.next_uuid + 1 } from by
      simp only [create_profile, hex, hf]]
    refine ⟨⟨st.next_uuid, u, n, e, sk, b, av, now, now⟩, ?_, rfl, rfl, rfl, rfl, rfl, rfl, rfl⟩
    simp only [get_profiles_by_user_id, List.filter_append]
    have hempty : st.profiles.filter (fun p => p.user_id == u) = [] := hex
    rw [hempty]
    simp
  | cons p0 t =>
    have ht : t = [] := by
      rw [hex] at hlen
      simp only [List.length_cons] at hlen
      exact List.length_eq_zero.mp (by omega)
    subst ht
    obtain ⟨hmem, hu0⟩ := mem_of_filter_cons st u p0 [] hex
    obtain ⟨q, hq⟩ := get_profile_by_id_isSome_of_mem st p0 hmem
    rw [show create_profile st u pd now = update_profile st p0.id pd now from by
      simp only [create_profile, hex]]
    rw [update_profile_ok st p0.id pd now q n e sk b av hq hf]
    refine ⟨{ p0 with name := n, email := e, skills := sk, bio := b, available_for := av,
                      updated_at := now }, ?_, hu0, rfl, rfl, rfl, rfl, rfl, rfl⟩
    simp only [get_profiles_by_user_id]
    rw [filter_userid_map _ _ _ (fun q2 => by
      by_cases h : (q2.id == p0.id) = true <;> simp [h])]
    have hfil : st.profiles.filter (fun p => p.user_id == u) = [p0] := hex
    rw [hfil]
    simp only [List.map_cons, List.map_nil]
    rw [if_pos (by simp)]

theorem fields_error_of_missing (pd : ProfileData)
    (h : pd.name = none ∨ pd.email = none ∨ pd.skills = none ∨ pd.bio = none ∨
      pd.available_for = none) :
    ∃ f, pd.fields = .error (.keyError f) := by
  cases hn : pd.name with
  | none => exact ⟨"name", by simp only [ProfileData.fields, hn]⟩
  | some n =>
    cases he : pd.email with
    | none => exact ⟨"email", by simp only [ProfileData.fields, hn, he]⟩
    | some e =>
      cases hs : pd.skills with
      | none => exact ⟨"skills", by simp only [ProfileData.fields, hn, he, hs]⟩
      | some sk =>
        cases hb : pd.bio with
        | none => exact ⟨"bio", by simp only [ProfileData.fields, hn, he, hs, hb]⟩
        | some b =>
          cases hav : pd.available_for with
          | none =>
            exact ⟨"available_for", by simp only [ProfileData.fields, hn, he, hs, hb, hav]⟩
          | some av =>
            exfalso
            simp only [hn, he, hs, hb, hav] at h
            rcases h with h | h | h | h | h <;> exact Option.noConfusion h

/-! ### Claim theorems -/

/-- Claim C1: at every state reachable by any sequence of Data Store
operations (create_user, create_profile, update_profile,
create_appointment_request, update_request_status) from a fresh store,
every user id owns at most one profile: `get_profiles_by_user_id u` has
length 0 or 1 for every `u`. -/
theorem claim_C1_one_profile_per_user (ops : List DBOp) (u : Nat) :
    (get_profiles_by_user_id (runOps ops) u).length = 0 ∨
    (get_profiles_by_user_id (runOps ops) u).length = 1 := by
  have h := runOps_wf ops u
  omega

/-- Claim C2: upserting for the same user twice, with complete data both
times, leaves exactly one profile owned by that user, and its name,
email, skills, bio and available_for equal the second record's fields. -/
theorem claim_C2_upsert_latest_wins (st : DBState) (u : Nat) (pd1 pd2 : ProfileData)
    (now1 now2 : Nat) (n1 e1 : String) (sk1 : List String) (b1 : String)
    (av1 : List String) (n2 e2 : String) (sk2 : List String) (b2 : String)
    (av2 : List String)
    (hreach : Reachable st)
    (h1 : pd1.fields = .ok (n1, e1, sk1, b1, av1))
    (h2 : pd2.fields = .ok (n2, e2, sk2, b2, av2)) :
    ∃ p, get_profiles_by_user_id
        (create_profile (create_profile st u pd1 now1).2 u pd2 now2).2 u = [p] ∧
      p.name = n2 ∧ p.email = e2 ∧ p.skills = sk2 ∧ p.bio = b2 ∧
      p.available_for = av2 := by
  obtain ⟨ops, rfl⟩ := hreach
  have hw := runOps_wf ops u
  obtain ⟨p1, hp1, -, -, -, -, -, -, -⟩ :=
    upsert_result (runOps ops) u pd1 now1 n1 e1 sk1 b1 av1 hw h1
  have hlen1 : (get_profiles_by_user_id
      (create_profile (runOps ops) u pd1 now1).2 u).length ≤ 1 := by
    rw [hp1]
    simp
  obtain ⟨p2, hp2, -, hn, he, hsk, hb, hav, -⟩ :=
    upsert_result _ u pd2 now2 n2 e2 sk2 b2 av2 hlen1 h2
  exact ⟨p2, hp2, hn, he, hsk, hb, hav⟩

theorem claim_C2_witness :
    ∃ p, get_profiles_by_user_id
        (create_profile (create_profile initDB 7 pdComplete 10).2 7 pdComplete2 11).2 7
        = [p] ∧
      p.name = "Bob" ∧ p.email = "bob@example.com" ∧ p.skills = ["go"] ∧
      p.bio = "yo" ∧ p.available_for = ["quotes"] :=
  claim_C2_upsert_latest_wins initDB 7 pdComplete pdComplete2 10 11
    "Alice" "alice@example.com" ["python"] "hi" ["appointments"]
    "Bob" "bob@example.com" ["go"] "yo" ["quotes"] ⟨[], rfl⟩ rfl rfl

/-- Claim C7: with at least one required field absent from the data
record, the profile upsert fails with the `KeyError` of a missing field
and leaves the store unchanged — both through `create_profile` (for any
user) and through `update_profile` on any existing profile. -/
theorem claim_C7_missing_field_rejected (st : DBState) (u : Nat) (pd : ProfileData)
    (now : Nat)
    (h : pd.name = none ∨ pd.email = none ∨ pd.skills = none ∨ pd.bio = none ∨
      pd.available_for = none) :
    (∃ f, create_profile st u pd now = (.error (.keyError f), st)) ∧
    ∀ pid p, get_profile_by_id st pid = some p →
      ∃ f, update_profile st pid pd now = (.error (.keyError f), st) := by
  obtain ⟨f0, hf0⟩ := fields_error_of_missing pd h
  constructor
  · cases hex : get_profiles_by_user_id st u with
    | nil => exact ⟨f0, by simp only [create_profile, hex, hf0]⟩
    | cons p0 t =>
      obtain ⟨hmem, -⟩ := mem_of_filter_cons st u p0 t hex
      obtain ⟨q, hq⟩ := get_profile_by_id_isSome_of_mem st p0 hmem
      refine ⟨f0, ?_⟩
      rw [show create_profile st u pd now = update_profile st p0.id pd now from by
        simp only [create_profile, hex]]
      simp only [update_profile, hq, hf0]
  · intro pid p hp
    exact ⟨f0, by simp only [update_profile, hp, hf0]⟩

theorem claim_C7_witness :
    (∃ f, create_profile stOneProfile 7 pdNoEmail 6 = (.error (.keyError f), stOneProfile)) ∧
    (∃ f, update_profile stOneProfile 0 pdNoEmail 6 = (.error (.keyError f), stOneProfile)) := by
  have h := claim_C7_missing_field_rejected stOneProfile 7 pdNoEmail 6 (Or.inr (Or.inl rfl))
  refine ⟨h.1, h.2 0 ⟨0, 7, "Alice", "alice@example.com", ["python"], "hi",
    ["appointments"], 5, 5⟩ (by decide)⟩

/-- Claim C9: on an existing profile and complete data, `update_profile`
changes only name, email, skills, bio, available_for and updated_at of
that profile; its id, user_id and created_at are unchanged, and every
other profile, every user and every appointment request is unchanged. -/
theorem claim_C9_update_frame (st : DBState) (pid : Nat) (p : Profile)
    (pd : ProfileData) (now : Nat) (n e : String) (sk : List String) (b : String)
    (av : List String)
    (hp : get_profile_by_id st pid = some p)
    (hf : pd.fields = .ok (n, e, sk, b, av)) :
    (∀ p2, (update_profile st pid pd now).1 = .ok p2 →
      p2.id = p.id ∧ p2.user_id = p.user_id ∧ p2.created_at = p.created_at ∧
      p2.name = n ∧ p2.email = e ∧ p2.skills = sk ∧ p2.bio = b ∧
      p2.available_for = av ∧ p2.updated_at = now) ∧
    (update_profile st pid pd now).2.users = st.users ∧
    (update_profile st pid pd now).2.appointment_requests = st.appointment_requests ∧
    get_profile_by_id (update_profile st pid pd now).2 pid
      = some { p with name := n, email := e, skills := sk, bio := b,
                      available_for := av, updated_at := now } ∧
    ∀ pid2, pid2 ≠ pid →
      get_profile_by_id (update_profile st pid pd now).2 pid2
        = get_profile_by_id st pid2 := by
  rw [update_profile_ok st pid pd now p n e sk b av hp hf]
  refine ⟨?_, rfl, rfl, ?_, ?_⟩
  · intro p2 h2
    have h3 : Except.ok { p with name := n, email := e, skills := sk, bio := b,
                                 available_for := av, updated_at := now }
        = (Except.ok p2 : Except Err Profile) := h2
    injection h3 with h3
    subst h3
    exact ⟨rfl, rfl, rfl, rfl, rfl, rfl, rfl, rfl, rfl⟩
  · show (st.profiles.map (fun q =>
        if q.id == pid then
          { q with name := n, email := e, skills := sk, bio := b, available_for := av,
                   updated_at := now }
        else q)).find? (fun q => q.id == pid) = _
    rw [find?_id_map_update st.profiles pid pid
      (fun q => { q with name := n, email := e, skills := sk, bio := b,
                         available_for := av, updated_at := now }) (fun q => rfl)]
    rw [show st.profiles.find? (fun q => q.id == pid) = some p from hp]
    have hpid : (p.id == pid) = true := by
      have h4 := List.find?_some
        (show st.profiles.find? (fun q => q.id == pid) = some p from hp)
      simpa using h4
    rw [Option.map_some']
    rw [if_pos hpid]
  · intro pid2 hne
    show (st.profiles.map (fun q =>
        if q.id == pid then
          { q with name := n, email := e, skills := sk, bio := b, available_for := av,
                   updated_at := now }
        else q)).find? (fun q => q.id == pid2) = _
    rw [find?_id_map_update st.profiles pid pid2
      (fun q => { q with name := n, email := e, skills := sk, bio := b,
                         available_for := av, updated_at := now }) (fun q => rfl)]
    cases hq : st.profiles.find? (fun q => q.id == pid2) with
    | none =>
      rw [Option.map_none']
      exact (show get_profile_by_id st pid2 = none from hq).symm
    | some q =>
      have hqid : (q.id == pid2) = true := by
        have h4 := List.find?_some hq
        simpa using h4
      have hqne : (q.id == pid) = false := by
        have hq2 : q.id = pid2 := by simpa using hqid
        simp [hq2, hne]
      rw [Option.map_some']
      rw [if_neg (by simp [hqne])]
      exact (show get_profile_by_id st pid2 = some q from hq).symm

theorem claim_C9_witness :
    (∀ p2, (update_profile stOneProfile 0 pdComplete2 9).1 = .ok p2 →
      p2.id = 0 ∧ p2.user_id = 7 ∧ p2.created_at = 5 ∧
      p2.name = "Bob" ∧ p2.email = "bob@example.com" ∧ p2.skills = ["go"] ∧
      p2.bio = "yo" ∧ p2.available_for = ["quotes"] ∧ p2.updated_at = 9) ∧
    (update_profile stOneProfile 0 pdComplete2 9).2.users = stOneProfile.users ∧
    (update_profile stOneProfile 0 pdComplete2 9).2.appointment_requests
      = stOneProfile.appointment_requests := by
  have h := claim_C9_update_frame stOneProfile 0
    ⟨0, 7, "Alice", "alice@example.com", ["python"], "hi", ["appointments"], 5, 5⟩
    pdComplete2 9 "Bob" "bob@example.com" ["go"] "yo" ["quotes"] (by decide) rfl
  exact ⟨h.1, h.2.1, h.2.2.1⟩

/-- Claim C10: the public request-appointment route always stores the new
request with an absent sender_user_id; a store all of whose requests have
an absent sender yields an empty `get_sent_requests_by_user_id u` for
every `u`, and the route preserves that property. -/
theorem claim_C10_public_requests_anonymous :
    (∀ st req now rid st2, request_appointment st req now = some (rid, st2) →
      ∃ r, st2.appointment_requests = st.appointment_requests ++ [r] ∧
        r.id = rid ∧ r.sender_user_id = none) ∧
    (∀ st : DBState, (∀ r ∈ st.appointment_requests, r.sender_user_id = none) →
      ∀ u, get_sent_requests_by_user_id st u = []) ∧
    (∀ st req now rid st2, request_appointment st req now = some (rid, st2) →
      (∀ r ∈ st.appointment_requests, r.sender_user_id = none) →
      ∀ u, get_sent_requests_by_user_id st2 u = []) := by
  have hb : ∀ st : DBState, (∀ r ∈ st.appointment_requests, r.sender_user_id = none) →
      ∀ u, get_sent_requests_by_user_id st u = [] := by
    intro st hall u
    refine List.filter_eq_nil_iff.mpr ?_
    intro r hr
    rw [hall r hr]
    simp
  have ha : ∀ st req now rid st2, request_appointment st req now = some (rid, st2) →
      ∃ r, st2.appointment_requests = st.appointment_requests ++ [r] ∧
        r.id = rid ∧ r.sender_user_id = none := by
    intro st req now rid st2 h
    cases hp : get_profile_by_id st req.profile_id with
    | none =>
      rw [show request_appointment st req now = none from by
        simp only [request_appointment, hp]] at h
      exact Option.noConfusion h
    | some prof =>
      rw [show request_appointment st req now
          = some ((create_appointment_request st req none now).1.id,
                  (create_appointment_request st req none now).2) from by
        simp only [request_appointment, hp]] at h
      injection h with h
      have hst2 : st2 = (create_appointment_request st req none now).2 :=
        (congrArg Prod.snd h).symm
      have hrid : rid = (create_appointment_request st req none now).1.id :=
        (congrArg Prod.fst h).symm
      refine ⟨(create_appointment_request st req none now).1, ?_, hrid.symm, rfl⟩
      rw [hst2]
      rfl
  refine ⟨ha, hb, ?_⟩
  intro st req now rid st2 h hall u
  obtain ⟨r, hreq, -, hrs⟩ := ha st req now rid st2 h
  refine hb st2 ?_ u
  intro r2 hr2
  rw [hreq] at hr2
  rcases List.mem_append.mp hr2 with h2 | h2
  · exact hall r2 h2
  · rw [List.mem_singleton.mp h2]
    exact hrs

theorem claim_C10_witness :
    (∃ r, (create_appointment_request stOneProfile rdExample none 20).2.appointment_requests
        = stOneProfile.appointment_requests ++ [r] ∧
      r.id = (create_appointment_request stOneProfile rdExample none 20).1.id ∧
      r.sender_user_id = none) ∧
    get_sent_requests_by_user_id
      (create_appointment_request stOneProfile rdExample none 20).2 7 = [] := by
  have h := claim_C10_public_requests_anonymous
  refine ⟨h.1 stOneProfile rdExample 20 _ _ (by decide), ?_⟩
  exact h.2.2 stOneProfile rdExample 20
    (create_appointment_request stOneProfile rdExample none 20).1.id
    (create_appointment_request stOneProfile rdExample none 20).2
    (by decide) (by decide) 7

/-- Claim C3: create_session for a user and verify_token on the returned
token, with no intervening operation and at any time before the 7-day
expiry, yields a session whose user_id is that user. -/
theorem claim_C3_roundtrip (st : AuthState) (u : String) (T now2 : Nat)
    (h : now2 < T + sevenDays) :
    ∃ s, (verify_token (create_session st u T).2 (create_session st u T).1 now2).1
        = some s ∧ s.user_id = u := by
  refine ⟨⟨u, T, T + sevenDays⟩, ?_, rfl⟩
  have hred : verify_token (create_session st u T).2 (create_session st u T).1 now2
      = if T + sevenDays > now2
          then (some ⟨u, T, T + sevenDays⟩, (create_session st u T).2)
          else (none,
            { sessions := derase (mkSessionId u T) ((create_session st u T).2).sessions }) := by
    simp only [create_session, verify_token, decodeToken]
    rw [dlookup_dinsert_self]
  rw [hred, if_pos (by omega)]

theorem claim_C3_witness :
    ∃ s, (verify_token (create_session authInit "u7" 100).2
        (create_session authInit "u7" 100).1 200).1 = some s ∧ s.user_id = "u7" :=
  claim_C3_roundtrip authInit "u7" 100 200 (by norm_num [sevenDays])

/-- Claim C4: for a session created at time T (expiry T + 7 days),
verify_token at a time past the expiry returns absent and removes exactly
that session from the store; before the expiry it returns the live
session record and leaves the store unchanged. -/
theorem claim_C4_expiry (st : AuthState) (u : String) (T now2 : Nat) :
    (now2 ≥ T + sevenDays →
      (verify_token (create_session st u T).2 (create_session st u T).1 now2).1 = none ∧
      dlookup (mkSessionId u T)
        ((verify_token (create_session st u T).2 (create_session st u T).1 now2).2).sessions
        = none ∧
      ∀ sid2, sid2 ≠ mkSessionId u T →
        dlookup sid2
            ((verify_token (create_session st u T).2 (create_session st u T).1 now2).2).sessions
          = dlookup sid2 ((create_session st u T).2).sessions) ∧
    (now2 < T + sevenDays →
      verify_token (create_session st u T).2 (create_session st u T).1 now2
        = (some ⟨u, T, T + sevenDays⟩, (create_session st u T).2)) := by
  have hred : verify_token (create_session st u T).2 (create_session st u T).1 now2
      = if T + sevenDays > now2
          then (some ⟨u, T, T + sevenDays⟩, (create_session st u T).2)
          else (none,
            { sessions := derase (mkSessionId u T) ((create_session st u T).2).sessions }) := by
    simp only [create_session, verify_token, decodeToken]
    rw [dlookup_dinsert_self]
  constructor
  · intro hge
    rw [hred, if_neg (by omega)]
    exact ⟨rfl, dlookup_derase_self _ _, fun sid2 hne => dlookup_derase_ne _ hne⟩
  · intro hlt
    rw [hred, if_pos (by omega)]

theorem claim_C4_witness :
    (verify_token (create_session authInit "u7" 100).2 (create_session authInit "u7" 100).1
        (100 + sevenDays)).1 = none ∧
    verify_token (create_session authInit "u7" 100).2 (create_session authInit "u7" 100).1 100
      = (some ⟨"u7", 100, 100 + sevenDays⟩, (create_session authInit "u7" 100).2) :=
  ⟨((claim_C4_expiry authInit "u7" 100 (100 + sevenDays)).1 (le_refl _)).1,
   (claim_C4_expiry authInit "u7" 100 100).2 (by norm_num [sevenDays])⟩

/-- Claim C5: verify_token is total over arbitrary tokens and fails
closed: any token whose decode fails, whose decoded payload lacks a
session id, or whose session id is not in the store, yields absent and
leaves the store unchanged. -/
theorem claim_C5_fails_closed (st : AuthState) (tok : Token) (now : Nat) :
    (decodeToken tok = none → verify_token st tok now = (none, st)) ∧
    (∀ td, decodeToken tok = some td → td.session_id = none →
      verify_token st tok now = (none, st)) ∧
    (∀ td sid, decodeToken tok = some td → td.session_id = some sid →
      dlookup sid st.sessions = none → verify_token st tok now = (none, st)) := by
  refine ⟨fun h => ?_, fun td h1 h2 => ?_, fun td sid h1 h2 h3 => ?_⟩
  · simp only [verify_token, h]
  · simp only [verify_token, h1, h2]
  · simp only [verify_token, h1, h2, h3]

theorem claim_C5_witness :
    verify_token authInit (Token.malformed "not a token") 0 = (none, authInit) ∧
    verify_token authInit (Token.encoded ⟨some "sid", some "u"⟩) 0 = (none, authInit) :=
  ⟨(claim_C5_fails_closed authInit (Token.malformed "not a token") 0).1 rfl,
   (claim_C5_fails_closed authInit (Token.encoded ⟨some "sid", some "u"⟩) 0).2.2
     ⟨some "sid", some "u"⟩ "sid" rfl rfl rfl⟩

/-- Claim C6: logout returns true and deletes the session exactly when
the decoded session id exists in the store; it returns false and leaves
the store unchanged on any decode failure or missing session; a second
logout with the same token returns false, and verify_token on a
logged-out token returns absent. -/
theorem claim_C6_logout (st : AuthState) (tok : Token) :
    (decodeToken tok = none → logout st tok = (false, st)) ∧
    (∀ td, decodeToken tok = some td → td.session_id = none →
      logout st tok = (false, st)) ∧
    (∀ td sid, decodeToken tok = some td → td.session_id = some sid →
      dlookup sid st.sessions = none → logout st tok = (false, st)) ∧
    (∀ td sid s, decodeToken tok = some td → td.session_id = some sid →
      dlookup sid st.sessions = some s →
      (logout st tok).1 = true ∧
      dlookup sid ((logout st tok).2).sessions = none ∧
      ∀ sid2, sid2 ≠ sid →
        dlookup sid2 ((logout st tok).2).sessions = dlookup sid2 st.sessions) ∧
    ((logout st tok).1 = true → (logout (logout st tok).2 tok).1 = false) ∧
    (∀ now, (logout st tok).1 = true → (verify_token (logout st tok).2 tok now).1 = none) := by
  rcases htok : decodeToken tok with _ | td
  · have hl : logout st tok = (false, st) := by simp only [logout, htok]
    refine ⟨fun h => hl, fun td2 h1 h2 => hl, fun td2 sid h1 h2 h3 => hl,
      fun td2 sid s h1 => Option.noConfusion h1, fun h => ?_, fun now h => ?_⟩
    · rw [hl] at h; exact Bool.noConfusion h
    · rw [hl] at h; exact Bool.noConfusion h
  · rcases hsid : td.session_id with _ | sid
    · have hl : logout st tok = (false, st) := by simp only [logout, htok, hsid]
      refine ⟨fun h => Option.noConfusion h,
        fun td2 h1 h2 => hl, fun td2 sid2 h1 h2 h3 => hl,
        fun td2 sid2 s h1 h2 => ?_, fun h => ?_, fun now h => ?_⟩
      · injection h1 with h1
        subst h1
        rw [hsid] at h2
        exact fun h3 => Option.noConfusion h2
      · rw [hl] at h; exact Bool.noConfusion h
      · rw [hl] at h; exact Bool.noConfusion h
    · rcases hlk : dlookup sid st.sessions with _ | s
      · have hl : logout st tok = (false, st) := by simp only [logout, htok, hsid, hlk]
        refine ⟨fun h => Option.noConfusion h,
          fun td2 h1 h2 => hl, fun td2 sid2 h1 h2 h3 => hl,
          fun td2 sid2 s h1 h2 h3 => ?_, fun h => ?_, fun now h => ?_⟩
        · injection h1 with h1
          subst h1
          rw [hsid] at h2
          injection h2 with h2
          subst h2
          rw [hlk] at h3
          exact Option.noConfusion h3
        · rw [hl] at h; exact Bool.noConfusion h
        · rw [hl] at h; exact Bool.noConfusion h
      · have hl : logout st tok = (true, { sessions := derase sid st.sessions }) := by
          simp only [logout, htok, hsid, hlk]
        have hgone : dlookup sid (derase sid st.sessions) = none :=
          dlookup_derase_self _ _
        refine ⟨fun h => Option.noConfusion h,
          fun td2 h1 h2 => ?_, fun td2 sid2 h1 h2 h3 => ?_,
          fun td2 sid2 s2 h1 h2 h3 => ?_, fun h => ?_, fun now h => ?_⟩
        · injection h1 with h1
          subst h1
          rw [hsid] at h2
          exact Option.noConfusion h2
        · injection h1 with h1
          subst h1
          rw [hsid] at h2
          injection h2 with h2
          subst h2
          rw [hlk] at h3
          exact Option.noConfusion h3
        · injection h1 with h1
          subst h1
          rw [hsid] at h2
          injection h2 with h2
          subst h2
          rw [hl]
          exact ⟨rfl, dlookup_derase_self _ _, fun sid3 hne => dlookup_derase_ne _ hne⟩
        · rw [hl]
          simp only [logout, htok, hsid, hgone]
        · rw [hl]
          simp only [verify_token, htok, hsid, hgone]

theorem claim_C6_witness :
    (logout (create_session authInit "u7" 100).2 (create_session authInit "u7" 100).1).1
      = true ∧
    (logout (logout (create_session authInit "u7" 100).2
        (create_session authInit "u7" 100).1).2 (create_session authInit "u7" 100).1).1
      = false ∧
    (verify_token (logout (create_session authInit "u7" 100).2
          (create_session authInit "u7" 100).1).2
        (create_session authInit "u7" 100).1 100).1 = none := by
  have h := claim_C6_logout (create_session authInit "u7" 100).2
    (create_session authInit "u7" 100).1
  have h4 := h.2.2.2.1 ⟨some (mkSessionId "u7" 100), some "u7"⟩ (mkSessionId "u7" 100)
    ⟨"u7", 100, 100 + sevenDays⟩ rfl rfl
    (show dlookup (mkSessionId "u7" 100)
        (dinsert (mkSessionId "u7" 100) ⟨"u7", 100, 100 + sevenDays⟩ authInit.sessions)
      = some ⟨"u7", 100, 100 + sevenDays⟩ from dlookup_dinsert_self _ _ _)
  exact ⟨h4.1, h.2.2.2.2.1 h4.1, h.2.2.2.2.2 100 h4.1⟩

/-- Claim C8, counterexample: two create_session calls with the same user
id and the same clock reading generate the same session id (the second
call overwrites the first session), so session ids are not distinct for
all user ids and all clock readings. -/
theorem claim_C8_counterexample :
    tokenSessionId (create_session authInit "u" 0).1
      = tokenSessionId (create_session (create_session authInit "u" 0).2 "u" 0).1 ∧
    ((create_session (create_session authInit "u" 0).2 "u" 0).2).sessions.length = 1 := by
  constructor
  · rfl
  · rfl

/-- Claim C8, amended: two create_session calls generate distinct session
ids provided they differ in user id or in clock reading (same user id and
same clock reading give a collision, as the counterexample shows). -/
theorem claim_C8_session_id_distinct (st1 st2 : AuthState) (u1 u2 : String)
    (t1 t2 : Nat) (h : u1 ≠ u2 ∨ t1 ≠ t2) :
    tokenSessionId (create_session st1 u1 t1).1
      ≠ tokenSessionId (create_session st2 u2 t2).1 := by
  intro heq
  have hmk : mkSessionId u1 t1 = mkSessionId u2 t2 := by
    simpa [tokenSessionId, create_session, decodeToken] using heq
  obtain ⟨hu, ht⟩ := mkSessionId_inj hmk
  rcases h with h | h
  · exact h hu
  · exact h ht

theorem claim_C8_witness :
    tokenSessionId (create_session authInit "a" 0).1
      ≠ tokenSessionId (create_session authInit "b" 0).1 :=
  claim_C8_session_id_distinct authInit authInit "a" "b" 0 0 (Or.inl (by decide))

end Profiles
